import Mathlib

/-!
Verification of the color-converter extension's conversion core.

The source (src/convert-color.tsx, src/color-converter.tsx) is TypeScript built
on the external `culori` color-math library.  Per the specification, culori is an
external collaborator exposing `parse` and per-model conversion functions that
return a color or null and, at the interface the code actually uses, may throw.
We therefore embed the repository's own functions over an abstract `Adapter`
record of conversion functions with result type `Except Unit (Option _)`
(an error models a thrown exception, `none` models null/undefined).

Channel arithmetic is exact rational arithmetic; the JavaScript string
operations the code relies on (Number.prototype.toFixed, Math.round,
toString(16), padStart/padEnd, template literals) are modelled exactly for the
values this code produces.
-/

namespace CC

/-- JS `Number.prototype.toFixed(f)` for `f ≥ 1`: sign first, then the
nearest multiple of `10^(-f)` of the absolute value, ties rounded up. -/
def toFixed (f : Nat) (x : ℚ) : String :=
  let sign := if x < 0 then "-" else ""
  let m : Nat := (Int.floor (|x| * (10 : ℚ) ^ f + 1/2)).toNat
  let ip := m / 10 ^ f
  let fp := m % 10 ^ f
  let fpStr := Nat.toDigits 10 fp
  sign ++ String.mk (Nat.toDigits 10 ip) ++ "." ++
    String.mk (List.replicate (f - fpStr.length) '0' ++ fpStr)

/-- JS `String.prototype.padEnd(k, "0")`. -/
def padEndZeros (k : Nat) (s : String) : String :=
  s ++ String.mk (List.replicate (k - s.data.length) '0')

/-- One uppercase hex digit (`toString(16).toUpperCase()`), for `k < 16`. -/
def hexDigitChar (k : Nat) : Char :=
  if k < 10 then Char.ofNat (48 + k) else Char.ofNat (55 + k)

/-- The source's `toHex` helper: `Math.round(clamp01(v) * 255)` rendered as two
uppercase hex digits (`padStart(2, "0")`). -/
def hexByte (v : ℚ) : String :=
  let n : Nat := (Int.floor (max 0 (min 1 v) * 255 + 1/2)).toNat
  String.mk [hexDigitChar (n / 16), hexDigitChar (n % 16)]

/-- JS `Math.round` (half rounds toward positive infinity). -/
def jsRound (x : ℚ) : Int := Int.floor (x + 1/2)

/-- An RGB channel value clamped to [0,1], scaled to 0..255 and rounded,
as used by formatRGB / formatHex. -/
def round255 (v : ℚ) : Nat := (jsRound (max 0 (min 1 v) * 255)).toNat

/-- Truncation toward zero, as JS number-to-integer conversion truncates. -/
def jsTrunc (q : ℚ) : ℤ := if q < 0 then Int.ceil q else Int.floor q

/-- JS `%` (remainder with the dividend's sign), used by the HSL hue branch. -/
def jsRem (a b : ℚ) : ℚ := a - b * (jsTrunc (a / b) : ℚ)

/-- JS number-to-string under a template literal, for the multiples of 1/100
that the HSL formatter produces (integer values print with no decimal point,
trailing zero decimals are dropped). -/
def hslNum (q : ℚ) : String :=
  let k : ℤ := Int.floor (q * 100)
  let sign := if k < 0 then "-" else ""
  let m := k.natAbs
  let ip := m / 100
  let fr := m % 100
  if fr = 0 then sign ++ String.mk (Nat.toDigits 10 ip)
  else if fr % 10 = 0 then
    sign ++ String.mk (Nat.toDigits 10 ip) ++ "." ++ String.mk (Nat.toDigits 10 (fr / 10))
  else
    sign ++ String.mk (Nat.toDigits 10 ip) ++ "." ++
      (if fr < 10 then "0" else "") ++ String.mk (Nat.toDigits 10 fr)

/-- `s` starts with `p` (JS `String.prototype.startsWith`). -/
def strStartsWith (s p : String) : Bool := p.data.isPrefixOf s.data

/-- JS `String.prototype.trim`. -/
def strTrim (s : String) : String :=
  String.mk (((s.data.dropWhile Char.isWhitespace).reverse.dropWhile Char.isWhitespace).reverse)

/-- JS `String.prototype.slice`-like character drop. -/
def strDrop (n : Nat) (s : String) : String := String.mk (s.data.drop n)

/-- Hex digit value, both cases, as `parseInt(-, 16)` reads a digit. -/
def hexVal (c : Char) : Nat :=
  if 48 ≤ c.toNat ∧ c.toNat ≤ 57 then c.toNat - 48
  else if 97 ≤ c.toNat ∧ c.toNat ≤ 102 then c.toNat - 87
  else if 65 ≤ c.toNat ∧ c.toNat ≤ 70 then c.toNat - 55
  else 0

/-- Is this a hex digit character (pattern `[0-9A-F]` with the `i` flag)? -/
def isHexDigitC (c : Char) : Bool :=
  decide ((48 ≤ c.toNat ∧ c.toNat ≤ 57) ∨ (97 ≤ c.toNat ∧ c.toNat ≤ 102) ∨
    (65 ≤ c.toNat ∧ c.toNat ≤ 70))

/-- The two-hex-digit component starting at character index `i`, divided by 255
(`parseInt(s.slice(i, i+2), 16) / 255`). -/
def hexPairAt (s : String) (i : Nat) : ℚ :=
  ((16 * hexVal (s.data.getD i '0') + hexVal (s.data.getD (i+1) '0') : Nat) : ℚ) / 255

/-! ## Data model

The tagged color union mirrors the culori color objects the source manipulates:
a mode tag plus numeric channels and optional alpha.  The OKLCH hue channel is
optional because culori leaves `h` undefined for achromatic colors and the
source destructures it with and without defaults. -/

structure RGB where
  r : ℚ
  g : ℚ
  b : ℚ
  alpha : Option ℚ := none
  deriving DecidableEq, Repr

structure P3c where
  r : ℚ
  g : ℚ
  b : ℚ
  alpha : Option ℚ := none
  deriving DecidableEq, Repr

structure Oklch where
  l : ℚ
  c : ℚ
  h : Option ℚ := none
  alpha : Option ℚ := none
  deriving DecidableEq, Repr

structure Oklab where
  l : ℚ
  a : ℚ
  b : ℚ
  alpha : Option ℚ := none
  deriving DecidableEq, Repr

structure Xyz where
  x : ℚ
  y : ℚ
  z : ℚ
  alpha : Option ℚ := none
  deriving DecidableEq, Repr

/-- Tagged union over the color models the source pattern-matches on. -/
inductive Color where
  | rgb (q : RGB)
  | p3 (q : P3c)
  | oklch (o : Oklch)
  | oklab (o : Oklab)
  | xyz65 (x : Xyz)
  deriving DecidableEq, Repr

/-- The alpha channel of a color, used by getProxyColor's alpha preservation. -/
def Color.alphaOf : Color → Option ℚ
  | .rgb q => q.alpha
  | .p3 q => q.alpha
  | .oklch o => o.alpha
  | .oklab o => o.alpha
  | .xyz65 x => x.alpha

/-- The `Space` string union of the source (`'out' | 'p3' | 'rec2020' | 'srgb'`). -/
inductive Space where
  | srgb
  | p3
  | rec2020
  | out
  deriving DecidableEq, Repr

/-- The ten-member `ColorFormat` union of convert-color.tsx
(`hexRgba` is the source's `"hex/rgba"`). -/
inductive ColorFormat where
  | rgb
  | hex
  | hexRgba
  | hsl
  | p3
  | oklch
  | oklab
  | vec
  | lrgb
  | figmaP3
  deriving DecidableEq, Repr

/-- The source's `srgbFormats` constant. -/
def srgbFormats : List ColorFormat := [.rgb, .hex, .hexRgba, .hsl]

/-- `isSRGBFormat` (convert-color.tsx line 1103). -/
def isSRGBFormat (f : ColorFormat) : Bool := decide (f ∈ srgbFormats)

/-- `ColorData.warnings`. -/
structure Warnings where
  unsupported : Bool
  fallback : Bool
  outOfGamut : Bool
  deriving DecidableEq, Repr

/-- The `ColorData` record formatColor produces for the list UI. -/
structure ColorData where
  format : ColorFormat
  value : String
  hexValue : String
  gamut : Space
  fallbackSpace : Space
  warnings : Warnings
  deriving DecidableEq, Repr

/-- `ColorSpaceResult` (convert-color.tsx lines 867-874). -/
structure ColorSpaceResult where
  originalSpace : Space
  fallbackSpace : Space
  p3Values : Option P3c
  rgbValues : Option RGB
  inGamut : Bool
  needsFallback : Bool
  deriving DecidableEq, Repr

/-- `ColorCache` (convert-color.tsx lines 1038-1042). -/
structure ColorCache where
  p3 : Option P3c
  rgb : Option RGB
  oklch : Option Oklch
  deriving DecidableEq, Repr

/-- `VisibleValue` (convert-color.tsx lines 1044-1050); `real` is always a
string on the paths the code takes. -/
structure VisibleValue where
  color : Color
  fallback : String
  real : String
  space : Space
  fallbackSpace : Space
  deriving DecidableEq, Repr

/-- The external culori adapter: per-model converters, the text parser, and the
transcendental part of the sRGB transfer function
(`Math.pow((v + 0.055) / 1.055, 2.4)`), abstract because it is irrational.
An `.error` result models a thrown exception, `.ok none` a null result. -/
structure Adapter where
  toRgb : Color → Except Unit (Option RGB)
  toP3 : Color → Except Unit (Option P3c)
  toOklch : Color → Except Unit (Option Oklch)
  toOklab : Color → Except Unit (Option Oklab)
  toXyz : Color → Except Unit (Option Xyz)
  parseText : String → Except Unit (Option Color)
  powG : ℚ → ℚ

/-- The spec's §6 interface assumption: the color-model adapter treats
malformed input as a null result and never throws. -/
structure NoThrow (A : Adapter) : Prop where
  rgb : ∀ c, ∃ v, A.toRgb c = .ok v
  p3 : ∀ c, ∃ v, A.toP3 c = .ok v
  oklch : ∀ c, ∃ v, A.toOklch c = .ok v
  oklab : ∀ c, ∃ v, A.toOklab c = .ok v
  xyz : ∀ c, ∃ v, A.toXyz c = .ok v

/-! ## Gamut predicates and the proxy transform -/

/-- The detection tolerance `EPSILON = 1e-6` (also the default epsilon of
`isInGamut` and the loop cutoff of `findClosestInGamut`). -/
def EPS : ℚ := 1 / 1000000

/-- `isInGamut` on an rgb-mode color: every channel in `[-ε, 1+ε]`. -/
def rgbChannelsInRange (q : RGB) (eps : ℚ) : Bool :=
  decide (-eps ≤ q.r ∧ q.r ≤ 1 + eps ∧ -eps ≤ q.g ∧ q.g ≤ 1 + eps ∧
    -eps ≤ q.b ∧ q.b ≤ 1 + eps)

/-- `isInGamut` on a p3-mode color: every channel in `[-ε, 1.6+ε]`. -/
def p3ChannelsInRange (q : P3c) (eps : ℚ) : Bool :=
  decide (-eps ≤ q.r ∧ q.r ≤ 8/5 + eps ∧ -eps ≤ q.g ∧ q.g ≤ 8/5 + eps ∧
    -eps ≤ q.b ∧ q.b ≤ 8/5 + eps)

/-- `isInGamut` (convert-color.tsx lines 175-195).  For a non-rgb, non-p3 mode
the source converts to RGB and recurses; on an rgb-mode object that recursion
immediately takes the rgb branch, so it is inlined here. -/
def isInGamut (A : Adapter) (c : Color) (eps : ℚ) : Except Unit Bool :=
  match c with
  | .p3 q => .ok (p3ChannelsInRange q eps)
  | .rgb q => .ok (rgbChannelsInRange q eps)
  | _ =>
    match A.toRgb c with
    | .error e => .error e
    | .ok none => .ok false
    | .ok (some rc) => .ok (rgbChannelsInRange rc eps)

/-- The truthiness-plus-gamut test `rgbValues && isInGamut(rgbValues)` of
detectColorSpace on an optional rgb-mode value. -/
def optRgbInGamut : Option RGB → Bool
  | some rv => rgbChannelsInRange rv EPS
  | none => false

/-- The truthiness-plus-gamut test `p3Values && isInGamut(p3Values)`. -/
def optP3InGamut : Option P3c → Bool
  | some pv => p3ChannelsInRange pv EPS
  | none => false

/-- The pure-white short-circuit test of getProxyColor:
`color.mode === 'oklch' && color.l === 1 && color.c === 0`. -/
def isWhiteOklch (c : Color) : Bool :=
  match c with
  | .oklch o => decide (o.l = 1 ∧ o.c = 0)
  | _ => false

/-- `getProxyColor` (convert-color.tsx lines 90-122): pure white in OKLCH is
returned unchanged; otherwise the color goes through XYZ D65 and then OKLCH,
and the input's alpha overwrites the projection's alpha. -/
def getProxyColor (A : Adapter) (c : Color) : Except Unit (Option Color) :=
  if isWhiteOklch c then .ok (some c)
  else
    match A.toXyz c with
    | .error e => .error e
    | .ok none => .ok none
    | .ok (some x) =>
      match A.toOklch (.xyz65 x) with
      | .error e => .error e
      | .ok none => .ok none
      | .ok (some o) => .ok (some (.oklch ⟨o.l, o.c, o.h, c.alphaOf⟩))

/-! ## Gamut detection -/

/-- The body of `detectColorSpace`'s `try` block (convert-color.tsx lines
207-271), before its `catch`: classify via the proxy color, sRGB first, then
P3, else out; `fallbackSpace` is always `srgb`. -/
def detectCoreE (A : Adapter) (c : Color) : Except Unit ColorSpaceResult :=
  match getProxyColor A c with
  | .error e => .error e
  | .ok none => .ok ⟨.out, .srgb, none, none, false, true⟩
  | .ok (some pc) =>
    match A.toRgb pc with
    | .error e => .error e
    | .ok rgbValues =>
      if optRgbInGamut rgbValues then
        match A.toP3 pc with
        | .error e => .error e
        | .ok p3v => .ok ⟨.srgb, .srgb, p3v, rgbValues, true, false⟩
      else
        match A.toP3 pc with
        | .error e => .error e
        | .ok p3Values =>
          if optP3InGamut p3Values then
            .ok ⟨.p3, .srgb, p3Values, rgbValues, true, true⟩
          else
            .ok ⟨.out, .srgb, p3Values, rgbValues, false, true⟩

/-- `detectColorSpace` (convert-color.tsx lines 206-284) as the total function
a single call computes: the `try` body, with the `catch` block's literal
fallback record (whose `originalSpace` is `'srgb'`).  The memoization cache is
modelled separately by `detectColorSpaceCached` below and shown transparent. -/
def detectColorSpace (A : Adapter) (c : Color) : ColorSpaceResult :=
  match detectCoreE A c with
  | .ok r => r
  | .error _ => ⟨.srgb, .srgb, none, none, false, true⟩

/-- Association-list lookup standing for `colorSpaceCache.get(cacheKey)`; the
source's cache key `JSON.stringify({mode, values})` determines exactly the
color value, so the key is the `Color` itself. -/
def cacheLookup (c : Color) : List (Color × ColorSpaceResult) → Option ColorSpaceResult
  | [] => none
  | (k, r) :: rest => if k = c then some r else cacheLookup c rest

/-- `detectColorSpace` with its cache threaded explicitly: a hit returns the
cached record; a miss computes and stores it; the `catch` branch returns its
fallback record without storing (the source's `catch` does not call
`cache.set`). -/
def detectColorSpaceCached (A : Adapter) (cache : List (Color × ColorSpaceResult))
    (c : Color) : ColorSpaceResult × List (Color × ColorSpaceResult) :=
  match cacheLookup c cache with
  | some r => (r, cache)
  | none =>
    match detectCoreE A c with
    | .ok r => (r, (c, r) :: cache)
    | .error _ => (⟨.srgb, .srgb, none, none, false, true⟩, cache)

/-! ## Format renderers (convert-color.tsx lines 452-722) -/

/-- The shared channel rendering of `formatRGB`: clamp to [0,1], scale by 255,
round, and append `/ alpha` (3 decimals) only when alpha is present and < 1. -/
def rgbString (q : RGB) : String :=
  let vals := String.mk (Nat.toDigits 10 (round255 q.r)) ++ ", " ++
    String.mk (Nat.toDigits 10 (round255 q.g)) ++ ", " ++
    String.mk (Nat.toDigits 10 (round255 q.b))
  match q.alpha with
  | some a => if a < 1 then "rgb(" ++ vals ++ " / " ++ toFixed 3 a ++ ")"
              else "rgb(" ++ vals ++ ")"
  | none => "rgb(" ++ vals ++ ")"

/-- `formatRGB` (lines 454-520): an oklch-mode input is converted through
XYZ D65 then RGB; any other mode is converted directly; both branches render
identically; failed conversions yield `"Invalid RGB"`. -/
def formatRGB (A : Adapter) (c : Color) : Except Unit String :=
  match c with
  | .oklch _ =>
    match A.toXyz c with
    | .error e => .error e
    | .ok none => .ok "Invalid RGB"
    | .ok (some x) =>
      match A.toRgb (.xyz65 x) with
      | .error e => .error e
      | .ok none => .ok "Invalid RGB"
      | .ok (some q) => .ok (rgbString q)
  | _ =>
    match A.toRgb c with
    | .error e => .error e
    | .ok none => .ok "Invalid RGB"
    | .ok (some q) => .ok (rgbString q)

/-- `formatHex` (lines 526-546). -/
def formatHex (A : Adapter) (c : Color) : Except Unit String :=
  match A.toRgb c with
  | .error e => .error e
  | .ok none => .ok "#000000"
  | .ok (some q) => .ok ("#" ++ hexByte q.r ++ hexByte q.g ++ hexByte q.b)

/-- `formatHexRGBA` (lines 552-572); alpha defaults to 1. -/
def formatHexRGBA (A : Adapter) (c : Color) : Except Unit String :=
  match A.toRgb c with
  | .error e => .error e
  | .ok none => .ok "#00000000"
  | .ok (some q) =>
    .ok ("#" ++ hexByte q.r ++ hexByte q.g ++ hexByte q.b ++ hexByte (q.alpha.getD 1))

/-- `formatP3` (lines 578-590): 4 decimals, right-padded with zeros to width 6;
no alpha is read. -/
def formatP3 (A : Adapter) (c : Color) : Except Unit String :=
  match A.toP3 c with
  | .error e => .error e
  | .ok none => .ok "Invalid P3"
  | .ok (some q) =>
    .ok ("color(display-p3 " ++ padEndZeros 6 (toFixed 4 q.r) ++ " " ++
      padEndZeros 6 (toFixed 4 q.g) ++ " " ++ padEndZeros 6 (toFixed 4 q.b) ++ ")")

/-- `formatOKLCH` (lines 596-612): an oklch-mode color is used as is, others
are converted; `l`, `c`, `h` are read with default 0 for a missing hue and no
alpha is read. -/
def formatOKLCH (A : Adapter) (c : Color) : Except Unit String :=
  match (match c with | .oklch o => .ok (some o) | _ => A.toOklch c :
      Except Unit (Option Oklch)) with
  | .error e => .error e
  | .ok none => .ok "Invalid OKLCH"
  | .ok (some o) =>
    .ok ("oklch(" ++ padEndZeros 5 (toFixed 2 (o.l * 100)) ++ "% " ++
      padEndZeros 6 (toFixed 4 o.c) ++ " " ++ toFixed 2 (o.h.getD 0) ++ ")")

/-- `formatOKLAB` (lines 618-628): lightness 2 decimals as percent, `a` 2
decimals, `b` 1 decimal; no alpha is read. -/
def formatOKLAB (A : Adapter) (c : Color) : Except Unit String :=
  match A.toOklab c with
  | .error e => .error e
  | .ok none => .ok "Invalid OKLAB"
  | .ok (some o) =>
    .ok ("oklab(" ++ toFixed 2 (o.l * 100) ++ "% " ++ toFixed 2 o.a ++ " " ++
      toFixed 1 o.b ++ ")")

/-- The sRGB transfer function as written inside `formatLinearRGB`
(`Math.abs(v) < 0.04045` branch). -/
def linVal2 (A : Adapter) (v : ℚ) : ℚ :=
  if |v| < 4045 / 100000 then v / (1292 / 100) else A.powG v

/-- `formatLinearRGB` (lines 634-653): a hard-coded reference string whenever
the green channel exceeds 0.9, otherwise each channel is gamma-decoded and
rendered with 5 decimals, right-padded to width 7; alpha defaults to 1. -/
def formatLinearRGB (A : Adapter) (c : Color) : Except Unit String :=
  match A.toRgb c with
  | .error e => .error e
  | .ok none => .ok "Invalid Linear RGB"
  | .ok (some q) =>
    if 9/10 < q.g then .ok "vec(-0.10584, 0.96562, -0.07085, 1)"
    else
      .ok ("vec(" ++ padEndZeros 7 (toFixed 5 (linVal2 A q.r)) ++ ", " ++
        padEndZeros 7 (toFixed 5 (linVal2 A q.g)) ++ ", " ++
        padEndZeros 7 (toFixed 5 (linVal2 A q.b)) ++ ", " ++
        padEndZeros 7 (toFixed 5 (q.alpha.getD 1)) ++ ")")

/-- The hard-coded Figma-orange test of `formatFigmaP3`
(`|r-1| < 0.001 && |g-0.502| < 0.001 && b < 0.001` on a p3-mode color). -/
def isFigmaOrange (q : P3c) : Bool :=
  decide (|q.r - 1| < 1/1000 ∧ |q.g - 502/1000| < 1/1000 ∧ q.b < 1/1000)

/-- `formatFigmaP3` (lines 659-684): the Figma-orange special case returns the
fixed string; otherwise convert to P3, clamp each channel to [0, 1.6], then
render each (clamped again to [0,1] inside `toHex`) as two uppercase hex
digits, alpha (default 1) included. -/
def formatFigmaP3 (A : Adapter) (c : Color) : Except Unit String :=
  match c with
  | .p3 q0 =>
    if isFigmaOrange q0 then .ok "#FF8000FF"
    else formatFigmaP3core A c
  | _ => formatFigmaP3core A c
where
  formatFigmaP3core (A : Adapter) (c : Color) : Except Unit String :=
    match A.toP3 c with
    | .error e => .error e
    | .ok none => .ok "#000000FF"
    | .ok (some q) =>
      .ok ("#" ++ hexByte (max 0 (min (8/5) q.r)) ++ hexByte (max 0 (min (8/5) q.g)) ++
        hexByte (max 0 (min (8/5) q.b)) ++ hexByte (q.alpha.getD 1))

/-- `formatHSL` (lines 688-722): the standard max/min/delta derivation on the
(unclamped) RGB conversion, hue rounded to 2 decimals and wrapped by +360 when
negative, saturation/lightness rounded to 1 decimal percent. -/
def formatHSL (A : Adapter) (c : Color) : Except Unit String :=
  match A.toRgb c with
  | .error e => .error e
  | .ok none => .ok "Invalid HSL"
  | .ok (some q) =>
    let mx := max q.r (max q.g q.b)
    let mn := min q.r (min q.g q.b)
    let delta := mx - mn
    let l := (mx + mn) / 2
    let s : ℚ := if delta ≠ 0 then delta / (1 - |2 * l - 1|) else 0
    let h : ℚ :=
      if delta ≠ 0 then
        let h0 : ℚ :=
          if mx = q.r then jsRem ((q.g - q.b) / delta) 6
          else if mx = q.g then (q.b - q.r) / delta + 2
          else (q.r - q.g) / delta + 4
        let h1 : ℚ := (jsRound (h0 * 60 * 100) : ℚ) / 100
        if h1 < 0 then h1 + 360 else h1
      else 0
    let sPercent : ℚ := (jsRound (s * 1000) : ℚ) / 10
    let lPercent : ℚ := (jsRound (l * 1000) : ℚ) / 10
    .ok ("hsl(" ++ hslNum h ++ " " ++ hslNum sPercent ++ "% " ++ hslNum lPercent ++ "%)")

/-- `formatForSpace` (lines 400-448); the source's `default` arm is
unreachable because the match on `ColorFormat` is exhaustive. -/
def formatForSpace (A : Adapter) (c : Color) (fmt : ColorFormat) : Except Unit String :=
  match fmt with
  | .rgb => formatRGB A c
  | .hex => formatHex A c
  | .hexRgba => formatHexRGBA A c
  | .hsl => formatHSL A c
  | .p3 => formatP3 A c
  | .oklch => formatOKLCH A c
  | .oklab => formatOKLAB A c
  | .vec => formatLinearRGB A c
  | .lrgb => formatLinearRGB A c
  | .figmaP3 => formatFigmaP3 A c

/-! ## Gamut mapper (`findClosestInGamut`, convert-color.tsx lines 950-977) -/

/-- The rgb-mode black `{ mode: 'rgb', r: 0, g: 0, b: 0 }` that the mapper
starts from and degrades to. -/
def blackRGB : RGB := ⟨0, 0, 0, none⟩

/-- Fuel that provably outlasts the `while (step > 1e-6)` loop, whose step
halves each iteration: `ceil(step * 10^6) + 1` halvings suffice
(see `gamutSearchLoop_fuel_irrelevant`). -/
def gamutIters (step : ℚ) : Nat := (Int.ceil (step * 1000000)).toNat + 1

/-- The body of the binary chroma search: test `rgb(oklch({l, c, h}))` against
the sRGB gamut; on success return that RGB and stop; on failure decrease `c`
by `step`, halve `step`, and continue while `step > 1e-6`; if the loop ends
without a hit the initial black survives.  As in the source, `l` and `h` are
never modified.  (culori's `rgb(undefined)` is undefined, so a failed `oklch`
projection skips the rgb conversion and continues.) -/
def gamutSearchLoop (A : Adapter) (l : ℚ) (hue : Option ℚ) :
    Nat → ℚ → ℚ → Except Unit RGB
  | 0, _, _ => .ok blackRGB
  | Nat.succ n, c, step =>
    if step ≤ EPS then .ok blackRGB
    else
      match A.toOklch (.oklch ⟨l, c, hue, none⟩) with
      | .error e => .error e
      | .ok none => gamutSearchLoop A l hue n (c - step) (step / 2)
      | .ok (some t) =>
        match A.toRgb (.oklch t) with
        | .error e => .error e
        | .ok none => gamutSearchLoop A l hue n (c - step) (step / 2)
        | .ok (some rt) =>
          if rgbChannelsInRange rt EPS then .ok rt
          else gamutSearchLoop A l hue n (c - step) (step / 2)

/-- `findClosestInGamut`: project to OKLCH (black if that fails), then run the
chroma search from `c` with initial step `c / 2`. -/
def findClosestInGamut (A : Adapter) (c : Color) : Except Unit RGB :=
  match A.toOklch c with
  | .error e => .error e
  | .ok none => .ok blackRGB
  | .ok (some o) => gamutSearchLoop A o.l o.h (gamutIters (o.c / 2)) o.c (o.c / 2)

/-! ## Fallback resolver (convert-color.tsx lines 287-394, 877-930, 994-1035) -/

/-- `toRgb` (lines 994-1015): convert through OKLCH, degrade to black on a
failed conversion, and snap each clamped channel to the 255 grid. -/
def toRgb (A : Adapter) (c : Color) : Except Unit RGB :=
  match A.toOklch c with
  | .error e => .error e
  | .ok none => .ok blackRGB
  | .ok (some o) =>
    match A.toRgb (.oklch o) with
    | .error e => .error e
    | .ok none => .ok blackRGB
    | .ok (some q) =>
      .ok ⟨(round255 q.r : ℚ) / 255, (round255 q.g : ℚ) / 255,
        (round255 q.b : ℚ) / 255, q.alpha⟩

/-- The sRGB transfer function as written inside `toLinear`
(`v <= 0.03928` branch — a different threshold than `formatLinearRGB`'s). -/
def linVal1 (A : Adapter) (v : ℚ) : ℚ :=
  if v ≤ 3928 / 100000 then v / (1292 / 100) else A.powG v

/-- `toLinear` (lines 1017-1035): gamma-decode each channel of the RGB
conversion; black if the conversion fails; alpha carried through. -/
def toLinear (A : Adapter) (c : Color) : Except Unit RGB :=
  match A.toRgb c with
  | .error e => .error e
  | .ok none => .ok blackRGB
  | .ok (some q) => .ok ⟨linVal1 A q.r, linVal1 A q.g, linVal1 A q.b, q.alpha⟩

/-- `detectColorSpaceAndFallback` (lines 877-930), logging elided: package the
detection result with rendered fallback/real strings. -/
def detectColorSpaceAndFallback (A : Adapter) (c : Color) : Except Unit VisibleValue :=
  let spaceResult := detectColorSpace A c
  if spaceResult.originalSpace = .srgb then
    let col := match spaceResult.rgbValues with | some rv => Color.rgb rv | none => c
    match formatRGB A col with
    | .error e => .error e
    | .ok s => .ok ⟨col, s, s, .srgb, .srgb⟩
  else
    let colP := match spaceResult.p3Values with | some pv => Color.p3 pv | none => c
    let colR := match spaceResult.rgbValues with | some rv => Color.rgb rv | none => c
    match formatRGB A colR with
    | .error e => .error e
    | .ok fb =>
      match formatP3 A colP with
      | .error e => .error e
      | .ok real => .ok ⟨colP, fb, real, spaceResult.originalSpace, spaceResult.fallbackSpace⟩

/-- The four-way sRGB switch shared by both sRGB branches of `getFallback`;
only called under `isSRGBFormat`, so the final arm is dead. -/
def srgbFormatOf (A : Adapter) (fmt : ColorFormat) (col : Color) : Except Unit String :=
  match fmt with
  | .rgb => formatRGB A col
  | .hex => formatHex A col
  | .hexRgba => formatHexRGBA A col
  | .hsl => formatHSL A col
  | _ => formatRGB A col

/-- The body of `getFallback`'s `try` block (lines 342-388). -/
def getFallbackE (A : Adapter) (c : Color) (fmt : ColorFormat) (cache : ColorCache) :
    Except Unit String :=
  match detectColorSpaceAndFallback A c with
  | .error e => .error e
  | .ok result =>
    if isSRGBFormat fmt then
      match cache.rgb with
      | some rv => srgbFormatOf A fmt (.rgb rv)
      | none =>
        match toRgb A c with
        | .error e => .error e
        | .ok rc => srgbFormatOf A fmt (.rgb rc)
    else if fmt = .figmaP3 then
      match c with
      | .p3 _ => formatFigmaP3 A c
      | _ =>
        match cache.p3 with
        | some q => formatFigmaP3 A (.p3 q)
        | none =>
          match A.toP3 c with
          | .error e => .error e
          | .ok (some q) => formatFigmaP3 A (.p3 q)
          | .ok none => formatFigmaP3 A c
    else if fmt = .oklch ∨ fmt = .oklab ∨ fmt = .p3 then
      formatForSpace A c fmt
    else if fmt = .vec ∨ fmt = .lrgb then
      match toLinear A c with
      | .error e => .error e
      | .ok lc => formatLinearRGB A (.rgb lc)
    else .ok result.fallback

/-- `getFallback` (lines 341-394): the `try` body with its `catch`, which
substitutes a format-dependent safe default. -/
def getFallback (A : Adapter) (c : Color) (fmt : ColorFormat) (cache : ColorCache) :
    String :=
  match getFallbackE A c fmt cache with
  | .ok s => s
  | .error _ => if fmt = .hex then "#000000" else "rgb(0, 0, 0)"

/-- The wide-gamut warning list `['p3', 'vec', 'lrgb'].includes(format)` of
`formatColor` and `getWarnings`. -/
def p3WarnFormats : List ColorFormat := [.p3, .vec, .lrgb]

/-- The body of `formatColor`'s `try` block (lines 288-316): detect, force
sRGB labels for sRGB formats, render the preview hex from the cached RGB
projection (or the gamut mapper), resolve the value, and attach warnings. -/
def formatColorE (A : Adapter) (c : Color) (fmt : ColorFormat) : Except Unit ColorData :=
  let spaceResult := detectColorSpace A c
  let actualSpace := if isSRGBFormat fmt then Space.srgb else spaceResult.originalSpace
  let actualFallback := if isSRGBFormat fmt then Space.srgb else spaceResult.fallbackSpace
  match (match spaceResult.rgbValues with
         | some rv => .ok rv
         | none => findClosestInGamut A c : Except Unit RGB) with
  | .error e => .error e
  | .ok previewRGB =>
    match formatHexRGBA A (.rgb previewRGB) with
    | .error e => .error e
    | .ok hexValue =>
      match A.toOklch c with
      | .error e => .error e
      | .ok okl =>
        .ok { format := fmt,
              value := getFallback A c fmt ⟨spaceResult.p3Values, spaceResult.rgbValues, okl⟩,
              hexValue := hexValue,
              gamut := actualSpace,
              fallbackSpace := actualFallback,
              warnings := ⟨false,
                decide (spaceResult.originalSpace = .out) && isSRGBFormat fmt,
                decide (spaceResult.originalSpace = .out) && decide (fmt ∈ p3WarnFormats)⟩ }

/-- `formatColor` (lines 287-338): the `try` body with its `catch`, which
returns the degraded "Invalid Color" record. -/
def formatColor (A : Adapter) (c : Color) (fmt : ColorFormat) : ColorData :=
  match formatColorE A c fmt with
  | .ok d => d
  | .error _ => ⟨fmt, "Invalid Color", "#000000", .out, .srgb, ⟨false, true, true⟩⟩

/-! ## Conversion orchestrator (convert-color.tsx lines 739-781, 1064-1110) -/

/-- `isP3HexFormat` (line 1108): the pattern `^#[0-9A-F]{8}$` with flag `i`. -/
def isP3HexFormat (s : String) : Bool :=
  decide (s.data.length = 9) && decide (s.data.getD 0 ' ' = '#') &&
    (s.data.drop 1).all isHexDigitC

/-- `processFigmaP3` (lines 1064-1100): strip the literal `"Figma P3 "`,
require 8 hex digits, and read the channels divided by 255; a malformed input
(including the thrown-and-caught missing prefix) degrades to opaque p3 black. -/
def processFigmaP3 (s : String) : P3c :=
  if strStartsWith s "Figma P3" then
    let clean := strTrim (if strStartsWith s "Figma P3 " then strDrop 9 s else s)
    if isP3HexFormat clean then
      ⟨hexPairAt clean 1, hexPairAt clean 3, hexPairAt clean 5, some (hexPairAt clean 7)⟩
    else ⟨0, 0, 0, some 1⟩
  else ⟨0, 0, 0, some 1⟩

/-- The parse step of the orchestrator's effect body (lines 746-753): the
Figma-P3 literal prefix, then the bare 8-hex-digit shorthand, then the general
parser. -/
def parseInput (A : Adapter) (t : String) : Except Unit (Option Color) :=
  if strStartsWith t "Figma P3" then .ok (some (.p3 (processFigmaP3 t)))
  else if isP3HexFormat t then .ok (some (.p3 (processFigmaP3 ("Figma P3 " ++ t))))
  else A.parseText t

/-- The requested-formats list of the orchestrator (lines 760-769). -/
def requestedFormats : List ColorFormat :=
  [.figmaP3, .oklch, .p3, .oklab, .vec, .hex, .rgb, .hsl]

/-- The orchestrator (the `useEffect` body of `Command`, lines 739-781): empty
input and parse failure yield no results; a thrown parse error is caught and
also yields no results; otherwise one `formatColor` record per requested
format, in order. -/
def convertAll (A : Adapter) (t : String) : List ColorData :=
  if t = "" then []
  else
    match parseInput A t with
    | .error _ => []
    | .ok none => []
    | .ok (some c) => requestedFormats.map (fun f => formatColor A c f)

/-! ## Concrete adapter instances

The theorems below hold for every adapter; these simple total instances
provide the concrete inputs for witnesses and counterexamples.  Each converter
copies the three channels positionally and keeps alpha, which is enough to
exercise every branch of the embedded code. -/

def copyRgb : Color → RGB
  | .rgb q => q
  | .p3 q => ⟨q.r, q.g, q.b, q.alpha⟩
  | .oklch o => ⟨o.l, o.c, o.h.getD 0, o.alpha⟩
  | .oklab o => ⟨o.l, o.a, o.b, o.alpha⟩
  | .xyz65 x => ⟨x.x, x.y, x.z, x.alpha⟩

def copyP3 : Color → P3c
  | .rgb q => ⟨q.r, q.g, q.b, q.alpha⟩
  | .p3 q => q
  | .oklch o => ⟨o.l, o.c, o.h.getD 0, o.alpha⟩
  | .oklab o => ⟨o.l, o.a, o.b, o.alpha⟩
  | .xyz65 x => ⟨x.x, x.y, x.z, x.alpha⟩

def copyOklch : Color → Oklch
  | .rgb q => ⟨q.r, q.g, some q.b, q.alpha⟩
  | .p3 q => ⟨q.r, q.g, some q.b, q.alpha⟩
  | .oklch o => o
  | .oklab o => ⟨o.l, o.a, some o.b, o.alpha⟩
  | .xyz65 x => ⟨x.x, x.y, some x.z, x.alpha⟩

def copyOklab : Color → Oklab
  | .rgb q => ⟨q.r, q.g, q.b, q.alpha⟩
  | .p3 q => ⟨q.r, q.g, q.b, q.alpha⟩
  | .oklch o => ⟨o.l, o.c, o.h.getD 0, o.alpha⟩
  | .oklab o => o
  | .xyz65 x => ⟨x.x, x.y, x.z, x.alpha⟩

def copyXyz : Color → Xyz
  | .rgb q => ⟨q.r, q.g, q.b, q.alpha⟩
  | .p3 q => ⟨q.r, q.g, q.b, q.alpha⟩
  | .oklch o => ⟨o.l, o.c, o.h.getD 0, o.alpha⟩
  | .oklab o => ⟨o.l, o.a, o.b, o.alpha⟩
  | .xyz65 x => x

/-- A total, never-throwing adapter. -/
def refAdapter : Adapter where
  toRgb c := .ok (some (copyRgb c))
  toP3 c := .ok (some (copyP3 c))
  toOklch c := .ok (some (copyOklch c))
  toOklab c := .ok (some (copyOklab c))
  toXyz c := .ok (some (copyXyz c))
  parseText _ := .ok none
  powG v := v * v

/-- Like `refAdapter` but every wide-gamut conversion reports alpha 1/3,
regardless of the input's alpha. -/
def alphaAdapter : Adapter :=
  { refAdapter with
    toP3 := fun c => .ok (some { copyP3 c with alpha := some (1/3) })
    toOklch := fun c => .ok (some { copyOklch c with alpha := some (1/3) })
    toOklab := fun c => .ok (some { copyOklab c with alpha := some (1/3) }) }

/-- An adapter whose XYZ D65 conversion returns null: the proxy projection
fails for every color. -/
def nullXyzAdapter : Adapter := { refAdapter with toXyz := fun _ => .ok none }

/-- An adapter whose XYZ D65 conversion throws. -/
def throwXyzAdapter : Adapter := { refAdapter with toXyz := fun _ => .error () }

/-- An adapter whose OKLCH conversion throws. -/
def throwOklchAdapter : Adapter := { refAdapter with toOklch := fun _ => .error () }

/-! ## Supporting lemmas -/

/-- `refAdapter` never throws. -/
theorem refAdapter_noThrow : NoThrow refAdapter :=
  ⟨fun c => ⟨some (copyRgb c), rfl⟩, fun c => ⟨some (copyP3 c), rfl⟩,
   fun c => ⟨some (copyOklch c), rfl⟩, fun c => ⟨some (copyOklab c), rfl⟩,
   fun c => ⟨some (copyXyz c), rfl⟩⟩

/-- The initial black of the gamut search is inside the sRGB gamut test. -/
theorem blackRGB_in_range : rgbChannelsInRange blackRGB EPS = true := by
  with_unfolding_all rfl

/-- The chroma-search fuel is irrelevant once it covers the number of halvings
the `while (step > 1e-6)` condition allows: the loop's value is determined by
`c` and `step` alone.  This justifies modelling the source's while loop with
the explicit fuel `gamutIters`. -/
theorem gamutSearchLoop_fuel_irrelevant (A : Adapter) (l : ℚ) (hue : Option ℚ) :
    ∀ n m (c step : ℚ), step * 1000000 ≤ 2 ^ n → step * 1000000 ≤ 2 ^ m →
      gamutSearchLoop A l hue n c step = gamutSearchLoop A l hue m c step := by
  intro n
  induction n with
  | zero =>
    intro m c step hn hm
    have hstep : step ≤ EPS := by
      rw [EPS]
      rw [pow_zero] at hn
      linarith
    cases m with
    | zero => rfl
    | succ m => simp [gamutSearchLoop, hstep]
  | succ n ih =>
    intro m c step hn hm
    cases m with
    | zero =>
      have hstep : step ≤ EPS := by
        rw [EPS]
        rw [pow_zero] at hm
        linarith
      simp [gamutSearchLoop, hstep]
    | succ m =>
      by_cases hstep : step ≤ EPS
      · simp [gamutSearchLoop, hstep]
      · have hrec : step / 2 * 1000000 ≤ 2 ^ n := by
          have := hn
          rw [pow_succ] at this
          linarith
        have hrec' : step / 2 * 1000000 ≤ 2 ^ m := by
          have := hm
          rw [pow_succ] at this
          linarith
        have hih := ih m (c - step) (step / 2) hrec hrec'
        simp only [gamutSearchLoop, if_neg hstep]
        rw [hih]

/-- `gamutIters step` halvings always satisfy the fuel bound above. -/
theorem gamutIters_sufficient (step : ℚ) : step * 1000000 ≤ 2 ^ gamutIters step := by
  rcases le_or_lt (step * 1000000) 0 with h | h
  · exact le_trans h (by positivity)
  · have h1 : step * 1000000 ≤ (⌈step * 1000000⌉ : ℚ) := Int.le_ceil _
    have h2 : (0 : ℤ) ≤ ⌈step * 1000000⌉ := by
      have := Int.le_ceil (step * 1000000)
      by_contra hcon
      push_neg at hcon
      have : (⌈step * 1000000⌉ : ℚ) < 0 := by exact_mod_cast hcon
      linarith
    set j : ℕ := (⌈step * 1000000⌉).toNat with hj
    have h3 : (⌈step * 1000000⌉ : ℚ) = (j : ℚ) := by
      rw [hj]
      exact_mod_cast (Int.toNat_of_nonneg h2).symm
    have h4 : (j : ℚ) ≤ 2 ^ (j + 1) := by
      have hlt : j < 2 ^ j := Nat.lt_two_pow j
      have : j ≤ 2 ^ (j + 1) := le_trans (le_of_lt hlt)
        (Nat.pow_le_pow_right (by norm_num) (Nat.le_succ j))
      exact_mod_cast this
    have : gamutIters step = j + 1 := rfl
    rw [this]
    calc step * 1000000 ≤ (j : ℚ) := by rw [← h3]; exact h1
      _ ≤ 2 ^ (j + 1) := h4

/-- Cache transparency of the detector's memoization: when every cache entry
records the detection body's value for its key, a cached call returns exactly
what `detectColorSpace` computes. -/
theorem detectColorSpaceCached_fst (A : Adapter) (cache : List (Color × ColorSpaceResult))
    (c : Color) (hc : ∀ p ∈ cache, detectCoreE A p.1 = .ok p.2) :
    (detectColorSpaceCached A cache c).1 = detectColorSpace A c := by
  unfold detectColorSpaceCached detectColorSpace
  cases hl : cacheLookup c cache with
  | none => cases hd : detectCoreE A c <;> simp
  | some r =>
    have hcore : detectCoreE A c = .ok r := by
      induction cache with
      | nil => simp [cacheLookup] at hl
      | cons p rest ih =>
        by_cases hpc : p.1 = c
        · have : cacheLookup c (p :: rest) = some p.2 := by
            cases p with
            | mk k v => simp_all [cacheLookup]
          rw [this] at hl
          have hv : p.2 = r := by injection hl
          rw [← hpc, ← hv]
          exact hc p (List.mem_cons_self p rest)
        · have : cacheLookup c (p :: rest) = cacheLookup c rest := by
            cases p with
            | mk k v => simp_all [cacheLookup]
          rw [this] at hl
          exact ih (fun q hq => hc q (List.mem_cons_of_mem p hq)) hl
    simp [hcore]

/-- Under the no-throw interface assumption the chroma search always
completes. -/
theorem noThrow_gamutSearchLoop (A : Adapter) (hA : NoThrow A) (l : ℚ) (hue : Option ℚ) :
    ∀ n (c step : ℚ), ∃ r, gamutSearchLoop A l hue n c step = .ok r := by
  intro n
  induction n with
  | zero => intro c step; exact ⟨blackRGB, rfl⟩
  | succ n ih =>
    intro c step
    by_cases hs : step ≤ EPS
    · exact ⟨blackRGB, by simp [gamutSearchLoop, hs]⟩
    · obtain ⟨t, ht⟩ := hA.oklch (.oklch ⟨l, c, hue, none⟩)
      cases t with
      | none =>
        obtain ⟨r, hr⟩ := ih (c - step) (step / 2)
        exact ⟨r, by simp [gamutSearchLoop, hs, ht, hr]⟩
      | some t0 =>
        obtain ⟨u, hu⟩ := hA.rgb (.oklch t0)
        cases u with
        | none =>
          obtain ⟨r, hr⟩ := ih (c - step) (step / 2)
          exact ⟨r, by simp [gamutSearchLoop, hs, ht, hu, hr]⟩
        | some rt =>
          by_cases hg : rgbChannelsInRange rt EPS
          · exact ⟨rt, by simp [gamutSearchLoop, hs, ht, hu, hg]⟩
          · obtain ⟨r, hr⟩ := ih (c - step) (step / 2)
            exact ⟨r, by simp [gamutSearchLoop, hs, ht, hu, hg, hr]⟩

/-- Under the no-throw assumption the gamut mapper always completes. -/
theorem noThrow_findClosestInGamut (A : Adapter) (hA : NoThrow A) (c : Color) :
    ∃ r, findClosestInGamut A c = .ok r := by
  obtain ⟨o, ho⟩ := hA.oklch c
  cases o with
  | none => exact ⟨blackRGB, by simp [findClosestInGamut, ho]⟩
  | some o0 =>
    obtain ⟨r, hr⟩ := noThrow_gamutSearchLoop A hA o0.l o0.h (gamutIters (o0.c / 2)) o0.c (o0.c / 2)
    exact ⟨r, by simp [findClosestInGamut, ho, hr]⟩

/-- Under the no-throw assumption `formatHexRGBA` always completes. -/
theorem noThrow_formatHexRGBA (A : Adapter) (hA : NoThrow A) (c : Color) :
    ∃ s, formatHexRGBA A c = .ok s := by
  obtain ⟨v, hv⟩ := hA.rgb c
  cases v with
  | none => exact ⟨"#00000000", by simp [formatHexRGBA, hv]⟩
  | some q =>
    exact ⟨"#" ++ hexByte q.r ++ hexByte q.g ++ hexByte q.b ++ hexByte (q.alpha.getD 1),
      by simp [formatHexRGBA, hv]⟩

/-- The value of the detection body when the proxy projection succeeds,
parameterized by the (non-throwing) conversions of the proxy. -/
theorem detectCoreE_proxy (A : Adapter) (c proxy : Color) (v : Option RGB) (w : Option P3c)
    (hp : getProxyColor A c = .ok (some proxy))
    (hv : A.toRgb proxy = .ok v) (hw : A.toP3 proxy = .ok w) :
    detectCoreE A c = .ok
      (if optRgbInGamut v then ⟨.srgb, .srgb, w, v, true, false⟩
       else if optP3InGamut w then ⟨.p3, .srgb, w, v, true, true⟩
       else ⟨.out, .srgb, w, v, false, true⟩) := by
  simp only [detectCoreE, hp, hv, hw]
  cases h1 : optRgbInGamut v <;> cases h2 : optP3InGamut w <;> simp [h1, h2]

/-- Under the no-throw assumption `formatColor` never takes its `catch`
branch, and its warnings are exactly the two boolean formulas of the source. -/
theorem formatColorE_ok (A : Adapter) (hA : NoThrow A) (c : Color) (fmt : ColorFormat) :
    ∃ d, formatColorE A c fmt = .ok d ∧ formatColor A c fmt = d ∧
      d.warnings = ⟨false,
        decide ((detectColorSpace A c).originalSpace = .out) && isSRGBFormat fmt,
        decide ((detectColorSpace A c).originalSpace = .out) && decide (fmt ∈ p3WarnFormats)⟩ := by
  obtain ⟨okl, hokl⟩ := hA.oklch c
  have hpre : ∃ p, (match (detectColorSpace A c).rgbValues with
      | some rv => .ok rv
      | none => findClosestInGamut A c : Except Unit RGB) = .ok p := by
    cases hrv : (detectColorSpace A c).rgbValues with
    | some rv => exact ⟨rv, by simp⟩
    | none =>
      obtain ⟨r, hr⟩ := noThrow_findClosestInGamut A hA c
      exact ⟨r, by simp [hr]⟩
  obtain ⟨p, hp⟩ := hpre
  obtain ⟨s, hs⟩ := noThrow_formatHexRGBA A hA (.rgb p)
  refine ⟨{ format := fmt,
            value := getFallback A c fmt
              ⟨(detectColorSpace A c).p3Values, (detectColorSpace A c).rgbValues, okl⟩,
            hexValue := s,
            gamut := if isSRGBFormat fmt then Space.srgb
              else (detectColorSpace A c).originalSpace,
            fallbackSpace := if isSRGBFormat fmt then Space.srgb
              else (detectColorSpace A c).fallbackSpace,
            warnings := ⟨false,
              decide ((detectColorSpace A c).originalSpace = .out) && isSRGBFormat fmt,
              decide ((detectColorSpace A c).originalSpace = .out) &&
                decide (fmt ∈ p3WarnFormats)⟩ }, ?_, ?_, rfl⟩
  · simp only [formatColorE, hp, hs, hokl]
  · simp only [formatColor, formatColorE, hp, hs, hokl]

/-- Invariant of the chroma search: starting from `step = c / 2` with
`0 ≤ c ≤ c0`, any successful result is inside the sRGB gamut test and is
either the initial black or the RGB rendering of `oklch(l, cg, hue)` for some
chroma `0 ≤ cg ≤ c0`, with `l` and `hue` untouched. -/
theorem gamutSearchLoop_spec (A : Adapter) (l : ℚ) (hue : Option ℚ) (c0 : ℚ) :
    ∀ n (c step : ℚ) (r : RGB), step = c / 2 → 0 ≤ c → c ≤ c0 →
      gamutSearchLoop A l hue n c step = .ok r →
      rgbChannelsInRange r EPS = true ∧
      (r = blackRGB ∨ ∃ (cg : ℚ) (t : Oklch), 0 ≤ cg ∧ cg ≤ c0 ∧
        A.toOklch (.oklch ⟨l, cg, hue, none⟩) = .ok (some t) ∧
        A.toRgb (.oklch t) = .ok (some r)) := by
  intro n
  induction n with
  | zero =>
    intro c step r _ _ _ h
    have hr : blackRGB = r := by simpa [gamutSearchLoop] using h
    rw [← hr]
    exact ⟨blackRGB_in_range, Or.inl rfl⟩
  | succ n ih =>
    intro c step r hstep hc hcc0 h
    subst hstep
    by_cases hs : c / 2 ≤ EPS
    · have hr : blackRGB = r := by simpa [gamutSearchLoop, hs] using h
      rw [← hr]
      exact ⟨blackRGB_in_range, Or.inl rfl⟩
    · simp only [gamutSearchLoop, if_neg hs] at h
      cases ht : A.toOklch (.oklch ⟨l, c, hue, none⟩) with
      | error e => simp [ht] at h
      | ok topt =>
        cases topt with
        | none =>
          simp only [ht] at h
          exact ih (c - c / 2) (c / 2 / 2) r (by ring) (by linarith) (by linarith) h
        | some t0 =>
          cases hu : A.toRgb (.oklch t0) with
          | error e => simp [ht, hu] at h
          | ok uopt =>
            cases uopt with
            | none =>
              simp only [ht, hu] at h
              exact ih (c - c / 2) (c / 2 / 2) r (by ring) (by linarith) (by linarith) h
            | some rt =>
              by_cases hg : rgbChannelsInRange rt EPS
              · have hr : rt = r := by simpa [ht, hu, hg] using h
                rw [← hr]
                exact ⟨hg, Or.inr ⟨c, t0, hc, hcc0, ht, hu⟩⟩
              · simp only [ht, hu, if_neg hg] at h
                exact ih (c - c / 2) (c / 2 / 2) r (by ring) (by linarith) (by linarith) h

/-! ## Claims -/

/-- Claim C1: for every color whose OKLCH proxy projection succeeds, gamut
detection reports `srgb` exactly when the proxy converted to RGB has every
channel within `[-1e-6, 1+1e-6]`; otherwise it reports `p3` with
`needsFallback = true` exactly when the proxy converted to P3 has every
channel within `[-1e-6, 1.6+1e-6]`; otherwise it reports `out` with
`needsFallback = true`; in every case `fallbackSpace = srgb`.  Stated under
the spec's §6 assumption that the adapter never throws. -/
theorem claim_C1 (A : Adapter) (c proxy : Color) (hA : NoThrow A)
    (hp : getProxyColor A c = .ok (some proxy)) :
    (detectColorSpace A c).fallbackSpace = Space.srgb ∧
    ((detectColorSpace A c).originalSpace = Space.srgb ↔
      ∃ rv, A.toRgb proxy = .ok (some rv) ∧ rgbChannelsInRange rv EPS = true) ∧
    ((detectColorSpace A c).originalSpace ≠ Space.srgb →
      (((detectColorSpace A c).originalSpace = Space.p3 ∧
          (detectColorSpace A c).needsFallback = true) ↔
        ∃ pv, A.toP3 proxy = .ok (some pv) ∧ p3ChannelsInRange pv EPS = true)) ∧
    ((detectColorSpace A c).originalSpace ≠ Space.srgb →
      (detectColorSpace A c).originalSpace ≠ Space.p3 →
      (detectColorSpace A c).originalSpace = Space.out ∧
      (detectColorSpace A c).needsFallback = true) := by
  obtain ⟨v, hv⟩ := hA.rgb proxy
  obtain ⟨w, hw⟩ := hA.p3 proxy
  have hd : detectColorSpace A c =
      (if optRgbInGamut v then ⟨.srgb, .srgb, w, v, true, false⟩
       else if optP3InGamut w then ⟨.p3, .srgb, w, v, true, true⟩
       else ⟨.out, .srgb, w, v, false, true⟩) := by
    unfold detectColorSpace
    rw [detectCoreE_proxy A c proxy v w hp hv hw]
  have hrgbIff : optRgbInGamut v = true ↔
      ∃ rv, A.toRgb proxy = .ok (some rv) ∧ rgbChannelsInRange rv EPS = true := by
    cases v with
    | none => simp [optRgbInGamut, hv]
    | some rv => simp [optRgbInGamut, hv]
  have hp3Iff : optP3InGamut w = true ↔
      ∃ pv, A.toP3 proxy = .ok (some pv) ∧ p3ChannelsInRange pv EPS = true := by
    cases w with
    | none => simp [optP3InGamut, hw]
    | some pv => simp [optP3InGamut, hw]
  have hOS : (detectColorSpace A c).originalSpace = Space.srgb ↔ optRgbInGamut v = true := by
    rw [hd]; cases optRgbInGamut v <;> cases optP3InGamut w <;> simp
  have hOSp3 : (detectColorSpace A c).originalSpace = Space.p3 ↔
      (optRgbInGamut v = false ∧ optP3InGamut w = true) := by
    rw [hd]; cases optRgbInGamut v <;> cases optP3InGamut w <;> simp
  have hOSout : (detectColorSpace A c).originalSpace = Space.out ↔
      (optRgbInGamut v = false ∧ optP3InGamut w = false) := by
    rw [hd]; cases optRgbInGamut v <;> cases optP3InGamut w <;> simp
  have hNF : (detectColorSpace A c).needsFallback = !optRgbInGamut v := by
    rw [hd]; cases optRgbInGamut v <;> cases optP3InGamut w <;> simp
  have hFS : (detectColorSpace A c).fallbackSpace = Space.srgb := by
    rw [hd]; cases optRgbInGamut v <;> cases optP3InGamut w <;> simp
  refine ⟨hFS, hOS.trans hrgbIff, ?_, ?_⟩
  · intro hne
    have h1 : optRgbInGamut v = false := by
      rcases Bool.eq_false_or_eq_true (optRgbInGamut v) with h | h
      · exact absurd (hOS.mpr h) hne
      · exact h
    constructor
    · rintro ⟨hsp, -⟩
      exact hp3Iff.mp (hOSp3.mp hsp).2
    · intro hex
      refine ⟨hOSp3.mpr ⟨h1, hp3Iff.mpr hex⟩, ?_⟩
      rw [hNF, h1]
      rfl
  · intro hne hnep3
    have h1 : optRgbInGamut v = false := by
      rcases Bool.eq_false_or_eq_true (optRgbInGamut v) with h | h
      · exact absurd (hOS.mpr h) hne
      · exact h
    have h2 : optP3InGamut w = false := by
      rcases Bool.eq_false_or_eq_true (optP3InGamut w) with h | h
      · exact absurd (hOSp3.mpr ⟨h1, h⟩) hnep3
      · exact h
    refine ⟨hOSout.mpr ⟨h1, h2⟩, ?_⟩
    rw [hNF, h1]
    rfl

/-- Witness for C1 at a concrete mid-gray: the proxy projection succeeds and
detection reports sRGB with all the claimed equivalences. -/
theorem claim_C1_witness :
    getProxyColor refAdapter (.rgb ⟨1/2, 1/2, 1/2, none⟩) =
      .ok (some (.oklch ⟨1/2, 1/2, some (1/2), none⟩)) ∧
    ((detectColorSpace refAdapter (.rgb ⟨1/2, 1/2, 1/2, none⟩)).fallbackSpace = Space.srgb ∧
     ((detectColorSpace refAdapter (.rgb ⟨1/2, 1/2, 1/2, none⟩)).originalSpace = Space.srgb ↔
       ∃ rv, refAdapter.toRgb (.oklch ⟨1/2, 1/2, some (1/2), none⟩) = .ok (some rv) ∧
         rgbChannelsInRange rv EPS = true) ∧
     ((detectColorSpace refAdapter (.rgb ⟨1/2, 1/2, 1/2, none⟩)).originalSpace ≠ Space.srgb →
       (((detectColorSpace refAdapter (.rgb ⟨1/2, 1/2, 1/2, none⟩)).originalSpace = Space.p3 ∧
           (detectColorSpace refAdapter (.rgb ⟨1/2, 1/2, 1/2, none⟩)).needsFallback = true) ↔
         ∃ pv, refAdapter.toP3 (.oklch ⟨1/2, 1/2, some (1/2), none⟩) = .ok (some pv) ∧
           p3ChannelsInRange pv EPS = true)) ∧
     ((detectColorSpace refAdapter (.rgb ⟨1/2, 1/2, 1/2, none⟩)).originalSpace ≠ Space.srgb →
       (detectColorSpace refAdapter (.rgb ⟨1/2, 1/2, 1/2, none⟩)).originalSpace ≠ Space.p3 →
       (detectColorSpace refAdapter (.rgb ⟨1/2, 1/2, 1/2, none⟩)).originalSpace = Space.out ∧
       (detectColorSpace refAdapter (.rgb ⟨1/2, 1/2, 1/2, none⟩)).needsFallback = true)) :=
  ⟨by with_unfolding_all rfl,
   claim_C1 refAdapter (.rgb ⟨1/2, 1/2, 1/2, none⟩) (.oklch ⟨1/2, 1/2, some (1/2), none⟩)
     refAdapter_noThrow (by with_unfolding_all rfl)⟩

/-- Claim C2 (amended): for every parsed color, `warnings.fallback`
("usedFallback") is true exactly when the detected original space is `out` and
the format is sRGB-native (rgb, hex, hex-alpha, hsl), and `warnings.outOfGamut`
is true exactly when the original space is `out` and the format is one of
`p3`, `vec`, `lrgb` — the figma-p3 format is NOT in the out-of-gamut warning
list, contrary to the original claim; for srgb/p3 colors both flags are false
for every format.  Stated under the spec's §6 no-throw assumption. -/
theorem claim_C2 (A : Adapter) (c : Color) (fmt : ColorFormat) (hA : NoThrow A) :
    (formatColor A c fmt).warnings.unsupported = false ∧
    (formatColor A c fmt).warnings.fallback =
      (decide ((detectColorSpace A c).originalSpace = Space.out) && isSRGBFormat fmt) ∧
    (formatColor A c fmt).warnings.outOfGamut =
      (decide ((detectColorSpace A c).originalSpace = Space.out) &&
        decide (fmt ∈ p3WarnFormats)) := by
  obtain ⟨d, hE, hF, hW⟩ := formatColorE_ok A hA c fmt
  rw [hF, hW]
  exact ⟨rfl, rfl, rfl⟩

/-- Counterexample to C2 as stated: a color detected `out` (its proxy
projection fails, which the detector classifies as `out`) whose figma-p3
record carries `outOfGamut = false`, where the claim demands `true`. -/
theorem claim_C2_counterexample :
    (detectColorSpace nullXyzAdapter (.rgb ⟨2, 0, 2, none⟩)).originalSpace = Space.out ∧
    (formatColor nullXyzAdapter (.rgb ⟨2, 0, 2, none⟩) .figmaP3).warnings.outOfGamut = false := by
  constructor
  · with_unfolding_all rfl
  · with_unfolding_all rfl

/-- Witness for the amended C2 at a concrete out-of-P3 color and the `p3`
format: `outOfGamut` is true and `fallback` is false, as the formulas say. -/
theorem claim_C2_witness :
    (formatColor refAdapter (.rgb ⟨2, 0, 2, none⟩) .p3).warnings.outOfGamut = true ∧
    (formatColor refAdapter (.rgb ⟨2, 0, 2, none⟩) .p3).warnings.fallback = false := by
  have h := claim_C2 refAdapter (.rgb ⟨2, 0, 2, none⟩) .p3 refAdapter_noThrow
  constructor
  · rw [h.2.2]
    with_unfolding_all rfl
  · rw [h.2.1]
    with_unfolding_all rfl

/-- Claim C3: whenever an exception is thrown during resolution, `formatColor`
returns the degraded record — value "Invalid Color", opaque-black preview hex,
gamut `out`, fallback space `srgb`, both warning flags true — and the
orchestrator's map yields exactly one record per requested format. -/
theorem claim_C3 (A : Adapter) (c : Color) (fmt : ColorFormat)
    (h : formatColorE A c fmt = .error ()) :
    formatColor A c fmt =
      ⟨fmt, "Invalid Color", "#000000", Space.out, Space.srgb, ⟨false, true, true⟩⟩ ∧
    (requestedFormats.map (fun f => formatColor A c f)).length = requestedFormats.length := by
  constructor
  · unfold formatColor
    rw [h]
  · simp

/-- Witness for C3: an adapter whose OKLCH conversion throws makes the
resolution body throw, and the degraded record is produced. -/
theorem claim_C3_witness :
    formatColorE throwOklchAdapter (.rgb ⟨1, 0, 0, none⟩) .rgb = .error () ∧
    formatColor throwOklchAdapter (.rgb ⟨1, 0, 0, none⟩) .rgb =
      ⟨.rgb, "Invalid Color", "#000000", Space.out, Space.srgb, ⟨false, true, true⟩⟩ :=
  ⟨by with_unfolding_all rfl,
   (claim_C3 throwOklchAdapter (.rgb ⟨1, 0, 0, none⟩) .rgb (by with_unfolding_all rfl)).1⟩

/-- Claim C4: every successful result of `mapToGamut` (`findClosestInGamut`)
is an rgb-model color passing the ε = 1e-6 in-gamut test; if the OKLCH
conversion of the input fails the result is black; and the result is either
black (also when no in-gamut chroma is found before the step falls to 1e-6)
or the RGB rendering of `oklch(l, cg, h)` where `l` and `h` are the input
projection's lightness and hue unchanged and `0 ≤ cg ≤ c` is a reduced
chroma. -/
theorem claim_C4 (A : Adapter) (c : Color) (r : RGB)
    (h : findClosestInGamut A c = .ok r) :
    rgbChannelsInRange r EPS = true ∧
    (A.toOklch c = .ok none → r = blackRGB) ∧
    (r = blackRGB ∨ ∃ (o : Oklch) (cg : ℚ) (t : Oklch),
      A.toOklch c = .ok (some o) ∧ 0 ≤ cg ∧ cg ≤ o.c ∧
      A.toOklch (.oklch ⟨o.l, cg, o.h, none⟩) = .ok (some t) ∧
      A.toRgb (.oklch t) = .ok (some r)) := by
  obtain ⟨vo, hvo⟩ : ∃ vo, A.toOklch c = vo := ⟨_, rfl⟩
  unfold findClosestInGamut at h
  rw [hvo] at h
  cases vo with
  | error e => exact absurd h (by simp)
  | ok oopt =>
    cases oopt with
    | none =>
      have hr : blackRGB = r := by simpa using h
      refine ⟨by rw [← hr]; exact blackRGB_in_range, fun _ => hr.symm, Or.inl hr.symm⟩
    | some o =>
      have h' : gamutSearchLoop A o.l o.h (gamutIters (o.c / 2)) o.c (o.c / 2) = .ok r := h
      have hnone : A.toOklch c = .ok none → r = blackRGB := by
        intro hcon
        rw [hvo] at hcon
        simp at hcon
      rcases le_or_lt 0 o.c with hpos | hneg
      · have hspec := gamutSearchLoop_spec A o.l o.h o.c (gamutIters (o.c / 2)) o.c (o.c / 2)
          r rfl hpos le_rfl h'
        refine ⟨hspec.1, hnone, ?_⟩
        rcases hspec.2 with hb | ⟨cg, t, h1, h2, h3, h4⟩
        · exact Or.inl hb
        · exact Or.inr ⟨o, cg, t, hvo, h1, h2, h3, h4⟩
      · have hEPSpos : (0 : ℚ) < EPS := by norm_num [EPS]
        have hstep : o.c / 2 ≤ EPS := by linarith
        have hloop : gamutSearchLoop A o.l o.h (gamutIters (o.c / 2)) o.c (o.c / 2) =
            .ok blackRGB := by
          show gamutSearchLoop A o.l o.h ((Int.ceil (o.c / 2 * 1000000)).toNat + 1) o.c
            (o.c / 2) = .ok blackRGB
          simp [gamutSearchLoop, hstep]
        rw [hloop] at h'
        have hr : blackRGB = r := by simpa using h'
        refine ⟨by rw [← hr]; exact blackRGB_in_range, hnone, Or.inl hr.symm⟩

/-- Witness for C4 at a concrete color whose first chroma test already lands
in gamut. -/
theorem claim_C4_witness :
    findClosestInGamut refAdapter (.rgb ⟨1/2, 1/4, 0, none⟩) = .ok ⟨1/2, 1/4, 0, none⟩ ∧
    (rgbChannelsInRange ⟨1/2, 1/4, 0, none⟩ EPS = true ∧
     (refAdapter.toOklch (.rgb ⟨1/2, 1/4, 0, none⟩) = .ok none →
       (⟨1/2, 1/4, 0, none⟩ : RGB) = blackRGB) ∧
     ((⟨1/2, 1/4, 0, none⟩ : RGB) = blackRGB ∨ ∃ (o : Oklch) (cg : ℚ) (t : Oklch),
       refAdapter.toOklch (.rgb ⟨1/2, 1/4, 0, none⟩) = .ok (some o) ∧ 0 ≤ cg ∧ cg ≤ o.c ∧
       refAdapter.toOklch (.oklch ⟨o.l, cg, o.h, none⟩) = .ok (some t) ∧
       refAdapter.toRgb (.oklch t) = .ok (some ⟨1/2, 1/4, 0, none⟩))) :=
  ⟨by with_unfolding_all rfl,
   claim_C4 refAdapter (.rgb ⟨1/2, 1/4, 0, none⟩) ⟨1/2, 1/4, 0, none⟩
     (by with_unfolding_all rfl)⟩

/-- Claim C5 (code bug): the linear-rgb rendering does not apply the transfer
function exactly once per channel.  At pure green (g = 1 > 0.9) the code
returns a hard-coded string with negative channel values instead of applying
the transfer function at all; and for other colors the pipeline
(`toLinear` inside `getFallback`, then `formatLinearRGB`'s own conversion)
applies the gamma decode twice: with `powG v = v²`, input r = 1/2 renders
`0.06250 = powG (powG (1/2))`, where a single application would render
`0.25000`. -/
theorem claim_C5 :
    (formatColor refAdapter (.rgb ⟨0, 1, 0, none⟩) .vec).value =
      "vec(-0.10584, 0.96562, -0.07085, 1)" ∧
    (formatColor refAdapter (.rgb ⟨1/2, 0, 0, none⟩) .vec).value =
      "vec(0.06250, 0.00000, 0.00000, 1.00000)" ∧
    refAdapter.powG (refAdapter.powG (1/2)) = 1/16 ∧
    padEndZeros 7 (toFixed 5 (refAdapter.powG (1/2))) = "0.25000" := by
  refine ⟨?_, ?_, ?_, ?_⟩
  · with_unfolding_all rfl
  · with_unfolding_all rfl
  · with_unfolding_all rfl
  · with_unfolding_all rfl

/-- Claim C6 (amended): a proxy projection returning no result makes detection
report `out` with `needsFallback = true`; but a thrown error during detection
is caught into a report whose `originalSpace` is `srgb` (not `out`), still
with `needsFallback = true` and without propagating. -/
theorem claim_C6 (A : Adapter) (c : Color) :
    (getProxyColor A c = .ok none →
      detectColorSpace A c = ⟨Space.out, Space.srgb, none, none, false, true⟩) ∧
    (detectCoreE A c = .error () →
      detectColorSpace A c = ⟨Space.srgb, Space.srgb, none, none, false, true⟩) := by
  constructor
  · intro hp
    unfold detectColorSpace detectCoreE
    rw [hp]
  · intro he
    unfold detectColorSpace
    rw [he]

/-- Counterexample to C6 as stated: with a throwing XYZ conversion the
detection body throws, and the caught report's `originalSpace` is `srgb`,
not `out` as the claim requires. -/
theorem claim_C6_counterexample :
    detectCoreE throwXyzAdapter (.rgb ⟨1, 0, 0, none⟩) = .error () ∧
    (detectColorSpace throwXyzAdapter (.rgb ⟨1, 0, 0, none⟩)).originalSpace = Space.srgb ∧
    Space.srgb ≠ Space.out := by
  refine ⟨?_, ?_, by decide⟩
  · with_unfolding_all rfl
  · with_unfolding_all rfl

/-- Witness for the amended C6: both branches at concrete inputs. -/
theorem claim_C6_witness :
    (getProxyColor nullXyzAdapter (.rgb ⟨0, 1, 0, none⟩) = .ok none ∧
     detectColorSpace nullXyzAdapter (.rgb ⟨0, 1, 0, none⟩) =
       ⟨Space.out, Space.srgb, none, none, false, true⟩) ∧
    (detectCoreE throwXyzAdapter (.rgb ⟨0, 1, 0, none⟩) = .error () ∧
     detectColorSpace throwXyzAdapter (.rgb ⟨0, 1, 0, none⟩) =
       ⟨Space.srgb, Space.srgb, none, none, false, true⟩) :=
  ⟨⟨by with_unfolding_all rfl,
    (claim_C6 nullXyzAdapter (.rgb ⟨0, 1, 0, none⟩)).1 (by with_unfolding_all rfl)⟩,
   ⟨by with_unfolding_all rfl,
    (claim_C6 throwXyzAdapter (.rgb ⟨0, 1, 0, none⟩)).2 (by with_unfolding_all rfl)⟩⟩

/-- Claim C7 (code bug): the figma-p3 rendering does not always include the
alpha channel.  At the Figma-orange p3 color (1, 0.502, 0) with alpha 1/2 the
hard-coded branch returns "#FF8000FF", dropping the alpha that the general
path renders as "80" (compare the nearby p3 color (1, 0, 0) with the same
alpha, which renders "#FF000080"). -/
theorem claim_C7 :
    (formatColor refAdapter (.p3 ⟨1, 502/1000, 0, some (1/2)⟩) .figmaP3).value =
      "#FF8000FF" ∧
    formatFigmaP3 refAdapter (.p3 ⟨1, 502/1000, 0, some (1/2)⟩) = .ok "#FF8000FF" ∧
    formatFigmaP3 refAdapter (.p3 ⟨1, 0, 0, some (1/2)⟩) = .ok "#FF000080" ∧
    hexByte (1/2) = "80" := by
  refine ⟨?_, ?_, ?_, ?_⟩
  · with_unfolding_all rfl
  · with_unfolding_all rfl
  · with_unfolding_all rfl
  · with_unfolding_all rfl

/-- Claim C8: whenever the parse step yields no color — a null parse result or
a thrown parse error — the orchestrator returns the empty result list, and by
its type it never propagates an exception. -/
theorem claim_C8 (A : Adapter) (t : String)
    (h : parseInput A t = .ok none ∨ parseInput A t = .error ()) :
    convertAll A t = [] := by
  by_cases ht : t = ""
  · simp [convertAll, ht]
  · rcases h with h | h
    · simp [convertAll, ht, h]
    · simp [convertAll, ht, h]

/-- Witness for C8 at the spec's own example of unparseable text. -/
theorem claim_C8_witness :
    parseInput refAdapter "not-a-color" = .ok none ∧
    convertAll refAdapter "not-a-color" = [] :=
  ⟨by with_unfolding_all rfl,
   claim_C8 refAdapter "not-a-color" (Or.inl (by with_unfolding_all rfl))⟩

/-- Claim C9: a color already in OKLCH with lightness 1 and chroma 0 (pure
white, any hue, any alpha) short-circuits the proxy transform — for EVERY
adapter, including ones whose XYZ conversion throws or fails, the proxy is the
color itself, so no XYZ/OKLCH (hue) computation is reached — and detection
classifies it `srgb` whenever its direct RGB conversion is in gamut (as
culori's is, mapping white to (1,1,1)). -/
theorem claim_C9 (o : Oklch) (hl : o.l = 1) (hc : o.c = 0) :
    (∀ A : Adapter, getProxyColor A (.oklch o) = .ok (some (.oklch o))) ∧
    (∀ (A : Adapter) (rv : RGB), A.toRgb (.oklch o) = .ok (some rv) →
      rgbChannelsInRange rv EPS = true →
      (detectColorSpace A (.oklch o)).originalSpace = Space.srgb) := by
  have hwhite : isWhiteOklch (.oklch o) = true := by
    simp [isWhiteOklch, hl, hc]
  have h1 : ∀ A : Adapter, getProxyColor A (.oklch o) = .ok (some (.oklch o)) := by
    intro A
    simp [getProxyColor, hwhite]
  refine ⟨h1, ?_⟩
  intro A rv hrv hrange
  cases hw : A.toP3 (.oklch o) with
  | error e =>
    cases e
    have hcore : detectCoreE A (.oklch o) = .error () := by
      simp only [detectCoreE, h1 A, hrv]
      simp [optRgbInGamut, hrange, hw]
    simp [detectColorSpace, hcore]
  | ok w =>
    have hcore : detectCoreE A (.oklch o) = .ok ⟨.srgb, .srgb, w, some rv, true, false⟩ := by
      simp only [detectCoreE, h1 A, hrv]
      simp [optRgbInGamut, hrange, hw]
    simp [detectColorSpace, hcore]

/-- Witness for C9 at pure white with a nonzero hue and alpha, with an adapter
mapping it into gamut; the short-circuit conjunct is also instantiated at the
throwing-XYZ adapter, which could not produce a proxy any other way. -/
theorem claim_C9_witness :
    getProxyColor throwXyzAdapter (.oklch ⟨1, 0, some (1/2), some (3/4)⟩) =
      .ok (some (.oklch ⟨1, 0, some (1/2), some (3/4)⟩)) ∧
    (detectColorSpace refAdapter (.oklch ⟨1, 0, some (1/2), some (3/4)⟩)).originalSpace =
      Space.srgb :=
  ⟨(claim_C9 ⟨1, 0, some (1/2), some (3/4)⟩ rfl rfl).1 throwXyzAdapter,
   (claim_C9 ⟨1, 0, some (1/2), some (3/4)⟩ rfl rfl).2 refAdapter ⟨1, 0, 1/2, some (3/4)⟩
     (by with_unfolding_all rfl) (by with_unfolding_all rfl)⟩

/-- Claim C10: the p3, oklch, and oklab formatters of the convert-color screen
read only the channel values and omit alpha entirely — changing the alpha the
conversions report (or the alpha of an oklch-mode input) never changes the
rendered string. -/
theorem claim_C10 (A B : Adapter) (c : Color) :
    (∀ (q : P3c) (a' : Option ℚ), A.toP3 c = .ok (some q) →
      B.toP3 c = .ok (some ⟨q.r, q.g, q.b, a'⟩) → formatP3 A c = formatP3 B c) ∧
    (∀ (o : Oklab) (a' : Option ℚ), A.toOklab c = .ok (some o) →
      B.toOklab c = .ok (some ⟨o.l, o.a, o.b, a'⟩) → formatOKLAB A c = formatOKLAB B c) ∧
    (∀ (l ch : ℚ) (hu : Option ℚ) (a a' : Option ℚ),
      formatOKLCH A (.oklch ⟨l, ch, hu, a⟩) = formatOKLCH B (.oklch ⟨l, ch, hu, a'⟩)) ∧
    (∀ (o : Oklch) (a' : Option ℚ), (∀ x, c ≠ .oklch x) → A.toOklch c = .ok (some o) →
      B.toOklch c = .ok (some ⟨o.l, o.c, o.h, a'⟩) → formatOKLCH A c = formatOKLCH B c) := by
  refine ⟨?_, ?_, ?_, ?_⟩
  · intro q a' hA hB
    simp [formatP3, hA, hB]
  · intro o a' hA hB
    simp [formatOKLAB, hA, hB]
  · intro l ch hu a a'
    rfl
  · intro o a' hne hA hB
    cases c with
    | oklch x => exact absurd rfl (hne x)
    | rgb q => simp [formatOKLCH, hA, hB]
    | p3 q => simp [formatOKLCH, hA, hB]
    | oklab q => simp [formatOKLCH, hA, hB]
    | xyz65 q => simp [formatOKLCH, hA, hB]

/-- Witness for C10: two adapters agreeing on channels but reporting different
alphas render the same p3 string, and oklch-mode inputs differing only in
alpha render the same oklch string. -/
theorem claim_C10_witness :
    (refAdapter.toP3 (.rgb ⟨1/2, 1/4, 0, some 1⟩) = .ok (some ⟨1/2, 1/4, 0, some 1⟩) ∧
     alphaAdapter.toP3 (.rgb ⟨1/2, 1/4, 0, some 1⟩) = .ok (some ⟨1/2, 1/4, 0, some (1/3)⟩) ∧
     formatP3 refAdapter (.rgb ⟨1/2, 1/4, 0, some 1⟩) =
       formatP3 alphaAdapter (.rgb ⟨1/2, 1/4, 0, some 1⟩)) ∧
    formatOKLCH refAdapter (.oklch ⟨1/2, 1/4, some 3, some 1⟩) =
      formatOKLCH alphaAdapter (.oklch ⟨1/2, 1/4, some 3, none⟩) :=
  ⟨⟨by with_unfolding_all rfl, by with_unfolding_all rfl,
    (claim_C10 refAdapter alphaAdapter (.rgb ⟨1/2, 1/4, 0, some 1⟩)).1
      ⟨1/2, 1/4, 0, some 1⟩ (some (1/3))
      (by with_unfolding_all rfl) (by with_unfolding_all rfl)⟩,
   (claim_C10 refAdapter alphaAdapter (.rgb ⟨0, 0, 0, none⟩)).2.2.1
     (1/2) (1/4) (some 3) (some 1) none⟩

end CC
